import Mathlib

/-!
Verification of the TrendRadar Trend & Search Analytics Engine.

The development shallowly embeds the repository's two Python source files
(`docker/manage.py`, `mcp_server/server.py`) and — for engine algorithms whose
implementation modules are not part of the sources at hand — models the
operations from the specification's own description, and proves the spec's
testable properties about them.

Layout: all definitions come first, all lemmas and theorems follow.
-/

/-! # Definitions -/

/-! ## Cron expression parsing (`docker/manage.py`, `parse_cron_schedule`) -/

/-- Cut a character list at every character satisfying `p`, keeping the
(possibly empty) fragments; `acc` is the current fragment, reversed. -/
def splitCharsOn (p : Char → Bool) : List Char → List Char → List (List Char)
  | [], acc => [acc.reverse]
  | c :: cs, acc =>
      if p c then acc.reverse :: splitCharsOn p cs []
      else splitCharsOn p cs (c :: acc)

/-- Python `str.split()` with no separator argument: split on whitespace runs,
dropping empty fragments (leading/trailing whitespace thus never yields a
field, so the preceding `.strip()` in the source is a no-op for the split). -/
def pySplit (s : String) : List String :=
  ((splitCharsOn Char.isWhitespace s.data []).filter (fun l => l ≠ [])).map
    (fun l => String.mk l)

/-- Python `str.zfill(2)`: left-pad with zeros to width 2, keeping a leading
sign character in front of the padding. -/
def zfill2 (s : String) : String :=
  if 2 ≤ s.length then s
  else
    match s.data with
    | [] => "00"
    | c :: _ => if c = '+' ∨ c = '-' then String.mk [c, '0'] else String.mk ['0', c]

/-- Weekday-name lookup table of `parse_cron_schedule` (`weekday_names.get(weekday, weekday)`). -/
def weekdayName (w : String) : String :=
  if w = "0" then "Sunday"
  else if w = "1" then "Monday"
  else if w = "2" then "Tuesday"
  else if w = "3" then "Wednesday"
  else if w = "4" then "Thursday"
  else if w = "5" then "Friday"
  else if w = "6" then "Saturday"
  else if w = "7" then "Sunday"
  else w

/-- "Analyze minutes" step of `parse_cron_schedule` (the `","` case and the
final `else` of the source produce the same string and are merged). -/
def minuteDesc (minute : String) : String :=
  if minute = "*" then "Every minute"
  else if minute.startsWith "*/" then "Every " ++ minute.drop 2 ++ " minutes"
  else "At minute " ++ minute

/-- "Analyze hours" step of `parse_cron_schedule`. -/
def hourDesc (hour : String) : String :=
  if hour = "*" then "Every hour"
  else if hour.startsWith "*/" then "Every " ++ hour.drop 2 ++ " hours"
  else "At hour " ++ hour

/-- "Analyze days" step of `parse_cron_schedule`. -/
def dayDesc (day : String) : String :=
  if day = "*" then "Every day"
  else if day.startsWith "*/" then "Every " ++ day.drop 2 ++ " days"
  else "On day " ++ day ++ " of month"

/-- "Analyze months" step of `parse_cron_schedule`. -/
def monthDesc (month : String) : String :=
  if month = "*" then "Every month" else "In month " ++ month

/-- "Analyze weekdays" step of `parse_cron_schedule`. -/
def weekdayDesc (weekday : String) : String :=
  if weekday = "*" then "" else "on " ++ weekdayName weekday

/-- Body of `parse_cron_schedule` for a well-formed five-field expression
(`minute, hour, day, month, weekday = parts`): combines the per-field
descriptions exactly as the source's final if/elif chain. -/
def cronDescription (minute hour day month weekday cronExpr : String) : String :=
  if minute.startsWith "*/" ∧ hour = "*" ∧ day = "*" ∧ month = "*" ∧ weekday = "*" then
    "Runs every " ++ minute.drop 2 ++ " minutes"
  else if hour ≠ "*" ∧ minute ≠ "*" ∧ day = "*" ∧ month = "*" ∧ weekday = "*" then
    "Runs daily at " ++ hour ++ ":" ++ zfill2 minute
  else if weekday ≠ "*" ∧ day = "*" then
    "Runs " ++ weekdayDesc weekday ++ " at " ++ hour ++ ":" ++ zfill2 minute
  else
    let descParts :=
      [monthDesc month, dayDesc day, weekdayDesc weekday, hourDesc hour,
        minuteDesc minute].filter
        (fun p => p ≠ "" ∧ p ≠ "Every month" ∧ p ≠ "Every day" ∧ p ≠ "Every hour")
    if descParts ≠ [] then "Runs " ++ String.intercalate " " descParts
    else "Complex expression: " ++ cronExpr

/-- `parse_cron_schedule` from `docker/manage.py`: empty or "Not Set" input is
returned as "Not Set"; an expression that does not split into exactly five
whitespace-separated fields is echoed back; otherwise the five fields are
described.  (The source wraps the field analysis in a `try`/`except` returning
"Parse failed: ..."; no statement in the guarded block can raise on a string
input, so the total Lean function needs no failure branch.) -/
def parseCronSchedule (cronExpr : String) : String :=
  if cronExpr = "" ∨ cronExpr = "Not Set" then "Not Set"
  else
    let parts := pySplit cronExpr
    if h : parts.length = 5 then
      cronDescription (parts.get ⟨0, by omega⟩) (parts.get ⟨1, by omega⟩)
        (parts.get ⟨2, by omega⟩) (parts.get ⟨3, by omega⟩)
        (parts.get ⟨4, by omega⟩) cronExpr
    else "Original expression: " ++ cronExpr

/-! ## Tool-instance singleton (`mcp_server/server.py`, `_get_tools`) -/

/-- One entry of the module-global `_tools_instances` dict; each tool class is
represented by the `project_root` its constructor received. -/
inductive ToolInstance where
  | dataQuery (projectRoot : Option String)
  | analytics (projectRoot : Option String)
  | searchTools (projectRoot : Option String)
  | configMgmt (projectRoot : Option String)
  | systemMgmt (projectRoot : Option String)
deriving DecidableEq

/-- The five instances created by the body of `_get_tools` when the global
dict is empty, in insertion order. -/
def mkToolInstances (projectRoot : Option String) : List (String × ToolInstance) :=
  [("data", ToolInstance.dataQuery projectRoot),
   ("analytics", ToolInstance.analytics projectRoot),
   ("search", ToolInstance.searchTools projectRoot),
   ("config", ToolInstance.configMgmt projectRoot),
   ("system", ToolInstance.systemMgmt projectRoot)]

/-- `_get_tools(project_root)`: populate the global dict only when it is empty
(`if not _tools_instances`), then return it.  The returned dict is the new
global state, so the function is modelled as state → state. -/
def getTools (st : List (String × ToolInstance)) (projectRoot : Option String) :
    List (String × ToolInstance) :=
  if st.isEmpty then mkToolInstances projectRoot else st

/-! ## Word groups and tokenization

Modelled from the spec: the engine modules (`tools/analytics.py`,
`tools/search_tools.py`, `tools/data_query.py`) invoked by
`mcp_server/server.py` are not among the sources at hand; the definitions in
the remaining sections follow the specification's own description of the
Word-Group Index, the Similarity & Search Engine, the Trend Analysis Engine
and the Insights Engine. -/

/-- Modelled from the spec: a WordGroup — "one attention topic defined by
three term sets — required (all must match), optional (synonyms, any one
matches), excluded (presence vetoes a match)" — extended with the group name
the Word-Group Index exposes for lookup. -/
structure WordGroup where
  name : String
  required : List String
  optional : List String
  excluded : List String
deriving DecidableEq

/-- Modelled from the spec: "A news item matches a group iff (required ⊆
item-terms, or required empty) AND (optional ∩ item-terms ≠ ∅, or optional
empty) AND (excluded ∩ item-terms = ∅)", together with the invariant "a
WordGroup with empty required and empty optional matches nothing (defensive:
treated as a configuration error, not a wildcard)". -/
def matchesGroup (g : WordGroup) (terms : List String) : Bool :=
  if g.required.isEmpty && g.optional.isEmpty then false
  else
    g.required.all (fun w => terms.contains w) &&
    (g.optional.isEmpty || g.optional.any (fun w => terms.contains w)) &&
    g.excluded.all (fun w => !terms.contains w)

/-- Modelled from the spec: the "small stopword set" dropped by the documented
tokenization of the Similarity & Search Engine. -/
def stopwords : List String :=
  ["a", "an", "the", "of", "for", "on", "in", "to", "and", "is", "at", "by", "with"]

/-- Modelled from the spec: "a pure function over tokenized, normalized
strings with documented tokenization rules (lower-case, strip punctuation,
drop a small stopword set)"; non-alphanumeric characters separate tokens, and
the result is deduplicated in first-occurrence order, giving the significant
token set of a title. -/
def tokenize (s : String) : List String :=
  ((((splitCharsOn (fun c => !c.isAlphanum) (s.data.map Char.toLower) []).filter
        (fun l => l ≠ [])).map (fun l => String.mk l)).filter
    (fun t => !stopwords.contains t)).dedup

/-! ## News items and date-scoped retrieval -/

/-- Modelled from the spec: a NewsItem — title, platform id, 1-based rank
within its platform's batch, optional url, capture timestamp. -/
structure NewsItem where
  title : String
  platformId : String
  rank : ℕ
  capturedAt : ℕ
  url : Option String := none
deriving DecidableEq

instance : Inhabited NewsItem := ⟨⟨"", "", 0, 0, none⟩⟩

/-- Modelled from the spec: a Batch — "one crawl run; has a capturedAt
timestamp and a set of per-platform NewsItem lists", organized by calendar
date (`date` is a day index). -/
structure Batch where
  date : ℕ
  capturedAt : ℕ
  items : List NewsItem
deriving DecidableEq

/-- Does the item pass an optional platform filter? -/
def platformAllowed (platforms : Option (List String)) (it : NewsItem) : Bool :=
  match platforms with
  | none => true
  | some ps => ps.contains it.platformId

/-- Modelled from the spec: the shared candidate-generation / news-by-date
scan — "scan news items in the resolved date range and platform filter":
batches whose date lies in `[startD, endD]` contribute their items, in
chronological batch order, filtered by platform. -/
def newsInDateRange (corpus : List Batch) (startD endD : ℕ)
    (platforms : Option (List String)) : List NewsItem :=
  ((corpus.filter (fun b => decide (startD ≤ b.date ∧ b.date ≤ endD))).flatMap
    (fun b => b.items)).filter (platformAllowed platforms)

/-! ## Similarity scoring (`find_similar_news`, `search_related_news_history`,
fuzzy search) -/

/-- Modelled from the spec: fuzzy-mode text similarity — "shared-token count
normalized by the larger token-set size, a Jaccard-style measure over
tokenized, lower-cased words with trivial stopwords removed".  Two titles
without significant tokens get similarity 0 (ℚ division by zero is zero). -/
def textSimilarity (a b : String) : ℚ :=
  let ta := tokenize a
  let tb := tokenize b
  ((ta.filter (fun w => tb.contains w)).length : ℚ) / (max ta.length tb.length : ℚ)

/-- Modelled from the spec: "the fraction of the reference title's significant
tokens present in the candidate title" (0 when the reference has no
significant tokens, by the ℚ division-by-zero convention). -/
def keywordOverlap (ref cand : String) : ℚ :=
  let tr := tokenize ref
  let tc := tokenize cand
  ((tr.filter (fun w => tc.contains w)).length : ℚ) / (tr.length : ℚ)

/-- Modelled from the spec: the blended relatedness score of
`find_similar_news` and `search_related_news_history` —
"final = 0.7 × keywordOverlap + 0.3 × textSimilarity". -/
def relatedScore (ref cand : String) : ℚ :=
  (7 / 10 : ℚ) * keywordOverlap ref cand + (3 / 10 : ℚ) * textSimilarity ref cand

/-- Result ordering of the relatedness searches: final score descending, ties
broken by recency (capture timestamp) descending. -/
def RelatedOrder (a b : NewsItem × ℚ) : Prop :=
  b.2 < a.2 ∨ (a.2 = b.2 ∧ b.1.capturedAt ≤ a.1.capturedAt)

instance : DecidableRel RelatedOrder := fun a b => by
  unfold RelatedOrder; infer_instance

instance : IsTotal (NewsItem × ℚ) RelatedOrder := ⟨fun a b => by
  unfold RelatedOrder
  rcases lt_trichotomy a.2 b.2 with h | h | h
  · exact Or.inr (Or.inl h)
  · rcases le_total b.1.capturedAt a.1.capturedAt with ht | ht
    · exact Or.inl (Or.inr ⟨h, ht⟩)
    · exact Or.inr (Or.inr ⟨h.symm, ht⟩)
  · exact Or.inl (Or.inl h)⟩

instance : IsTrans (NewsItem × ℚ) RelatedOrder := ⟨fun a b c hab hbc => by
  unfold RelatedOrder at hab hbc ⊢
  rcases hab with h1 | ⟨h1, h1'⟩ <;> rcases hbc with h2 | ⟨h2, h2'⟩
  · exact Or.inl (by linarith)
  · exact Or.inl (by rw [← h2]; exact h1)
  · exact Or.inl (by rw [h1]; exact h2)
  · exact Or.inr ⟨h1.trans h2, h2'.trans h1'⟩⟩

/-- Modelled from the spec: the shared pipeline of `find_similar_news` and
`search_related_news_history` — score every candidate with the blended
relatedness score, drop results below `threshold`, and sort by final score
descending with ties broken by recency descending. -/
def findSimilarNews (referenceTitle : String) (candidates : List NewsItem)
    (threshold : ℚ) : List (NewsItem × ℚ) :=
  List.insertionSort RelatedOrder
    ((candidates.map (fun it => (it, relatedScore referenceTitle it.title))).filter
      (fun r => decide (threshold ≤ r.2)))

/-- Modelled from the spec: `search_related_news_history` — resolve the time
preset to a date range, gather the candidate items of that range, and run the
shared relatedness pipeline. -/
def searchRelatedNewsHistory (referenceText : String) (corpus : List Batch)
    (startD endD : ℕ) (threshold : ℚ) : List (NewsItem × ℚ) :=
  findSimilarNews referenceText (newsInDateRange corpus startD endD none) threshold

/-! ## Unified search (`search_news`) -/

/-- The three search modes of the unified search entry point. -/
inductive SearchMode where
  | keyword
  | fuzzy
  | entity
deriving DecidableEq

/-- The three sort orders of the unified search entry point. -/
inductive SortBy where
  | relevance
  | weight
  | date
deriving DecidableEq

/-- Case-insensitive whitespace normalization of the keyword-mode query:
lower-case and collapse whitespace runs to single spaces. -/
def normalizeText (s : String) : String :=
  String.intercalate " " (pySplit (String.mk (s.data.map Char.toLower)))

/-- Modelled from the spec: keyword-mode match — "the query string
(case-insensitive, whitespace-normalized) appears as a substring of the
title, or the item matches a WordGroup whose name equals the query". -/
def keywordMatch (groups : List WordGroup) (query : String) (it : NewsItem) : Bool :=
  decide ((normalizeText query).data <:+: (normalizeText it.title).data) ||
  groups.any (fun g => g.name == query && matchesGroup g (tokenize it.title))

/-- Modelled from the spec: entity-mode match — the title contains "a
capitalized or quoted span equal to the query (a lightweight named-entity
heuristic — exact span match)". -/
def entityMatch (query : String) (it : NewsItem) : Bool :=
  (query.data ≠ [] && (query.data.headD ' ').isUpper &&
    decide (query.data <:+: it.title.data)) ||
  decide (('"' :: query.data ++ ['"']) <:+: it.title.data)

/-- Modelled from the spec: the Ranking module's popularity weight, using the
spec's documented example curve weight = 1 / (rank + 1). -/
def popularityWeight (it : NewsItem) : ℚ := 1 / ((it.rank : ℚ) + 1)

/-- Sort order for `sort_by = "weight"`: popularity weight as primary key,
relevance (score, then recency) as tiebreak. -/
def WeightOrder (a b : NewsItem × ℚ) : Prop :=
  popularityWeight b.1 < popularityWeight a.1 ∨
    (popularityWeight a.1 = popularityWeight b.1 ∧ RelatedOrder a b)

instance : DecidableRel WeightOrder := fun a b => by
  unfold WeightOrder; infer_instance

/-- Sort order for `sort_by = "date"`: capture timestamp descending. -/
def DateOrder (a b : NewsItem × ℚ) : Prop :=
  b.1.capturedAt ≤ a.1.capturedAt

instance : DecidableRel DateOrder := fun a b => by
  unfold DateOrder; infer_instance

/-- Sort contract of the unified search entry point. -/
def sortResults (sortBy : SortBy) (rs : List (NewsItem × ℚ)) : List (NewsItem × ℚ) :=
  match sortBy with
  | SortBy.relevance => List.insertionSort RelatedOrder rs
  | SortBy.weight => List.insertionSort WeightOrder rs
  | SortBy.date => List.insertionSort DateOrder rs

/-- Modelled from the spec: the unified search entry point `search_news` —
shared candidate generation over the resolved date range and platform filter,
mode-specific matching and scoring (keyword and entity matches score 1.0;
fuzzy scores by token-set similarity and excludes items scoring below
`threshold`), then the requested sort order. -/
def searchNewsUnified (groups : List WordGroup) (corpus : List Batch)
    (query : String) (mode : SearchMode) (startD endD : ℕ)
    (platforms : Option (List String)) (sortBy : SortBy) (threshold : ℚ) :
    List (NewsItem × ℚ) :=
  let cands := newsInDateRange corpus startD endD platforms
  let scored :=
    match mode with
    | SearchMode.keyword =>
        (cands.filter (keywordMatch groups query)).map (fun it => (it, (1 : ℚ)))
    | SearchMode.fuzzy =>
        (cands.map (fun it => (it, textSimilarity query it.title))).filter
          (fun r => decide (threshold ≤ r.2))
    | SearchMode.entity =>
        (cands.filter (entityMatch query)).map (fun it => (it, (1 : ℚ)))
  sortResults sortBy scored

/-! ## Trend Analysis Engine (`analyze_topic_trend`) -/

/-- Modelled from the spec: a TrendPoint — one sample in a topic's time
series, with an hour-resolution timestamp and a mention count. -/
structure TrendPoint where
  timestamp : ℕ
  mentionCount : ℕ
deriving DecidableEq

/-- Modelled from the spec: the rolling window of viral detection — the series
points captured within the `timeWindow` hours strictly preceding point `p`. -/
def rollingWindow (series : List TrendPoint) (timeWindow : ℕ) (p : TrendPoint) :
    List TrendPoint :=
  series.filter (fun q =>
    decide (p.timestamp - timeWindow ≤ q.timestamp ∧ q.timestamp < p.timestamp))

/-- Outcome of viral detection at one point. -/
inductive ViralStatus where
  | flagged
  | normal
  | insufficientData
deriving DecidableEq

/-- Modelled from the spec: viral detection — "flags a point as anomalous when
its count exceeds threshold × (rolling mean over the preceding timeWindow
hours) ... Requires at least two points in the rolling window; fewer points
yields 'insufficient data', not a false negative". -/
def viralClassify (series : List TrendPoint) (threshold : ℚ) (timeWindow : ℕ) :
    List (TrendPoint × ViralStatus) :=
  series.map (fun p =>
    let w := rollingWindow series timeWindow p
    if w.length < 2 then (p, ViralStatus.insufficientData)
    else
      let mean : ℚ := ((w.map TrendPoint.mentionCount).sum : ℚ) / (w.length : ℚ)
      if threshold * mean < (p.mentionCount : ℚ) then (p, ViralStatus.flagged)
      else (p, ViralStatus.normal))

/-- Modelled from the spec: "the maximum observed multiple" of viral
detection — the largest count / rolling-mean ratio over points with enough
window data. -/
def maxViralMultiple (series : List TrendPoint) (timeWindow : ℕ) : ℚ :=
  (series.filterMap (fun p =>
    let w := rollingWindow series timeWindow p
    if w.length < 2 then none
    else some ((p.mentionCount : ℚ) /
      (((w.map TrendPoint.mentionCount).sum : ℚ) / (w.length : ℚ))))).foldr max 0

/-- The lifecycle phases of a topic's activity curve. -/
inductive LifecyclePhase where
  | emerging
  | peak
  | declining
  | dormant
deriving DecidableEq

/-- Index of the first occurrence of the global maximum of the series (0 for
the empty series). -/
def argmaxIdx (counts : List ℕ) : ℕ :=
  (counts.enum.foldl (fun best x => if best.2 < x.2 then x else best) (0, 0)).1

/-- First index of the trailing run of zero/near-zero counts (`counts.length`
when the last count is above `eps`). -/
def dormantStart (eps : ℕ) (counts : List ℕ) : ℕ :=
  counts.length - (counts.reverse.takeWhile (fun c => c ≤ eps)).length

/-- Modelled from the spec: lifecycle segmentation — "locating the global
maximum and classifying points before it as emerging, the maximum ± one local
window as peak, and the monotonically decreasing tail as declining; a
trailing run of zero/near-zero counts is dormant".  The three boundaries are
clamped so the dormant tail takes precedence and the segments stay ordered. -/
def lifecyclePhaseOf (counts : List ℕ) (window eps : ℕ) (i : ℕ) : LifecyclePhase :=
  let d := dormantStart eps counts
  let p := argmaxIdx counts
  let peakEnd := min (p + window + 1) d
  let peakStart := min (p - window) peakEnd
  if i < peakStart then LifecyclePhase.emerging
  else if i < peakEnd then LifecyclePhase.peak
  else if i < d then LifecyclePhase.declining
  else LifecyclePhase.dormant

/-- The phase assignment of a whole series, one entry per point. -/
def lifecyclePhases (counts : List ℕ) (window eps : ℕ) :
    List (ℕ × LifecyclePhase) :=
  (List.range counts.length).map (fun i => (i, lifecyclePhaseOf counts window eps i))

/-- The indices of the series assigned to one phase. -/
def phaseIndices (counts : List ℕ) (window eps : ℕ) (ph : LifecyclePhase) : List ℕ :=
  ((lifecyclePhases counts window eps).filter (fun r => r.2 = ph)).map Prod.fst

/-- Linear trend classification. -/
inductive TrendDirection where
  | rising
  | falling
  | flat
deriving DecidableEq

/-- Modelled from the spec: the slope of "a simple least-squares fit over the
series" of counts against point index (0 for series of fewer than two
points, by the ℚ division-by-zero convention). -/
def lsqSlope (ys : List ℚ) : ℚ :=
  let n := ys.length
  let xs := (List.range n).map (fun i => (i : ℚ))
  let xbar := xs.sum / (n : ℚ)
  let ybar := ys.sum / (n : ℚ)
  (((xs.zip ys).map (fun q => (q.1 - xbar) * (q.2 - ybar))).sum) /
    ((xs.map (fun x => (x - xbar) ^ 2)).sum)

/-- The "small epsilon relative to mean count" of the flat classification. -/
def trendEps : ℚ := 1 / 20

/-- Modelled from the spec: trend mode — "a linear direction classification
(rising/falling/flat) computed from the slope sign of a simple least-squares
fit over the series; flat if |slope| below a small epsilon relative to mean
count". -/
def trendDirection (ys : List ℚ) : TrendDirection :=
  let slope := lsqSlope ys
  let mean := ys.sum / (ys.length : ℚ)
  if |slope| ≤ trendEps * |mean| then TrendDirection.flat
  else if 0 < slope then TrendDirection.rising
  else TrendDirection.falling

/-- Modelled from the spec: the fitted-confidence proxy of predict mode — the
R² of the trailing linear fit (0 for degenerate series). -/
def rSquared (ys : List ℚ) : ℚ :=
  let n := ys.length
  let xs := (List.range n).map (fun i => (i : ℚ))
  let xbar := xs.sum / (n : ℚ)
  let ybar := ys.sum / (n : ℚ)
  let slope := lsqSlope ys
  let ssRes := ((xs.zip ys).map
    (fun q => (q.2 - (ybar + slope * (q.1 - xbar))) ^ 2)).sum
  let ssTot := (ys.map (fun y => (y - ybar) ^ 2)).sum
  1 - ssRes / ssTot

/-- Modelled from the spec: predict mode — "extrapolates the short-term slope
over the trailing window ... emits a prediction only when a fitted-confidence
proxy (e.g., R² of the trailing linear fit) meets confidenceThreshold,
otherwise reports 'no prediction'".  The emitted value is the projected count
after `lookaheadHours`. -/
def predictAnalysis (series : List TrendPoint) (lookaheadHours : ℕ)
    (confidenceThreshold : ℚ) : Option ℚ :=
  let ys := series.map (fun p => (p.mentionCount : ℚ))
  if confidenceThreshold ≤ rSquared ys then
    some ((ys.getLastD 0) + lsqSlope ys * (lookaheadHours : ℚ))
  else none

/-- The failure kinds of the analysis entry points. -/
inductive AnalysisError where
  | unsupportedAnalysisType
deriving DecidableEq

/-- Mode-specific payload of a trend analysis result. -/
inductive AnalysisPayload where
  | trend (direction : TrendDirection)
  | lifecycle (phases : List (ℕ × LifecyclePhase))
  | viral (points : List (TrendPoint × ViralStatus)) (maxMultiple : ℚ)
  | predict (projection : Option ℚ)
deriving DecidableEq

/-- A trend analysis result: the (possibly empty) underlying series plus the
mode-specific payload. -/
structure AnalysisResult where
  series : List TrendPoint
  payload : AnalysisPayload
deriving DecidableEq

/-- The analysis types accepted by `analyze_topic_trend`. -/
def supportedAnalysisTypes : List String := ["trend", "lifecycle", "viral", "predict"]

/-- Modelled from the spec: the unified `analyze_topic_trend` entry point,
parameterized by `analysisType ∈ {trend, lifecycle, viral, predict}`; an
unknown analysis type fails with `UnsupportedAnalysisType`, and a topic with
zero matching mentions in range (an empty series) yields an empty-series
result, not an error. -/
def analyzeTopicTrendUnified (analysisType : String) (series : List TrendPoint)
    (threshold : ℚ) (timeWindow : ℕ) (lookaheadHours : ℕ)
    (confidenceThreshold : ℚ) (window eps : ℕ) :
    Except AnalysisError AnalysisResult :=
  if analysisType = "trend" then
    Except.ok ⟨series,
      AnalysisPayload.trend (trendDirection (series.map (fun p => (p.mentionCount : ℚ))))⟩
  else if analysisType = "lifecycle" then
    Except.ok ⟨series,
      AnalysisPayload.lifecycle (lifecyclePhases (series.map TrendPoint.mentionCount) window eps)⟩
  else if analysisType = "viral" then
    Except.ok ⟨series,
      AnalysisPayload.viral (viralClassify series threshold timeWindow)
        (maxViralMultiple series timeWindow)⟩
  else if analysisType = "predict" then
    Except.ok ⟨series,
      AnalysisPayload.predict (predictAnalysis series lookaheadHours confidenceThreshold)⟩
  else Except.error AnalysisError.unsupportedAnalysisType

/-! ## Insights Engine (`analyze_data_insights`, keyword co-occurrence) -/

/-- Item terms used by the Insights Engine when matching a WordGroup against a
news item: the significant tokens of its title. -/
def itemTerms (it : NewsItem) : List String := tokenize it.title

/-- Modelled from the spec: the matched item set of a WordGroup over the items
in scope, as the set of item positions (positions, not items, so duplicate
titles stay distinct). -/
def matchedSet (g : WordGroup) (items : List NewsItem) : Finset ℕ :=
  (Finset.range items.length).filter
    (fun i => matchesGroup g (itemTerms (items.getD i default)))

/-- Implementation-style co-occurrence count: the number of items in scope
matched by both groups. -/
def cooccurCount (a b : WordGroup) (items : List NewsItem) : ℕ :=
  items.countP (fun it => matchesGroup a (itemTerms it) && matchesGroup b (itemTerms it))

/-- Implementation-style size of the union of the two matched sets: the
number of items matched by either group. -/
def eitherCount (a b : WordGroup) (items : List NewsItem) : ℕ :=
  items.countP (fun it => matchesGroup a (itemTerms it) || matchesGroup b (itemTerms it))

/-- Modelled from the spec: "a normalized co-occurrence strength
(intersection / union, i.e. Jaccard)" over the two groups' matched item sets,
computed implementation-style by counting items matching both and items
matching either (0 when no item matches either group). -/
def cooccurStrength (a b : WordGroup) (items : List NewsItem) : ℚ :=
  (cooccurCount a b items : ℚ) / (eitherCount a b items : ℚ)

/-! # Theorems -/

/-! ## Cron parsing (C10) -/

lemma append_split_runs_every (x : String) :
    "Runs every " ++ x = "Runs " ++ ("every " ++ x) := by
  rw [← String.append_assoc]
  have h : ("Runs " ++ "every " : String) = "Runs every " := by decide
  rw [h]

lemma append_split_runs_daily (x : String) :
    "Runs daily at " ++ x = "Runs " ++ ("daily at " ++ x) := by
  rw [← String.append_assoc]
  have h : ("Runs " ++ "daily at " : String) = "Runs daily at " := by decide
  rw [h]

/-- Every five-field description is either a "Runs ..." sentence or the
"Complex expression" fallback. -/
lemma cronDescription_shape (minute hour day month weekday cronExpr : String) :
    (∃ t, cronDescription minute hour day month weekday cronExpr = "Runs " ++ t) ∨
      cronDescription minute hour day month weekday cronExpr
        = "Complex expression: " ++ cronExpr := by
  unfold cronDescription
  split
  · exact Or.inl ⟨"every " ++ (minute.drop 2 ++ " minutes"), by
      rw [String.append_assoc, append_split_runs_every]⟩
  · split
    · exact Or.inl ⟨"daily at " ++ (hour ++ (":" ++ zfill2 minute)), by
        rw [String.append_assoc, String.append_assoc, append_split_runs_daily]⟩
    · split
      · exact Or.inl ⟨weekdayDesc weekday ++ (" at " ++ (hour ++ (":" ++ zfill2 minute))), by
          rw [String.append_assoc, String.append_assoc, String.append_assoc,
            String.append_assoc]⟩
      · dsimp only
        split
        · exact Or.inl ⟨_, rfl⟩
        · exact Or.inr rfl

/-- C10: `parse_cron_schedule` is total over all string inputs (the Lean
embedding is a total function, and nothing in the guarded block can raise):
empty input or the literal "Not Set" yields "Not Set"; an input whose
whitespace-split is not exactly five fields yields "Original expression: "
followed by the input; every other input yields a descriptive string — a
"Runs ..." sentence or the "Complex expression: ..." fallback (the source's
"Parse failed: ..." branch is unreachable for string inputs). -/
theorem C10_parse_cron_schedule_total (s : String) :
    ((s = "" ∨ s = "Not Set") → parseCronSchedule s = "Not Set") ∧
    (¬(s = "" ∨ s = "Not Set") → (pySplit s).length ≠ 5 →
      parseCronSchedule s = "Original expression: " ++ s) ∧
    (¬(s = "" ∨ s = "Not Set") → (pySplit s).length = 5 →
      (∃ t, parseCronSchedule s = "Runs " ++ t) ∨
        parseCronSchedule s = "Complex expression: " ++ s) := by
  refine ⟨fun h => ?_, fun h hn => ?_, fun h h5 => ?_⟩
  · unfold parseCronSchedule
    rw [if_pos h]
  · unfold parseCronSchedule
    rw [if_neg h]
    exact dif_neg hn
  · unfold parseCronSchedule
    rw [if_neg h]
    dsimp only
    rw [dif_pos h5]
    exact cronDescription_shape _ _ _ _ _ _

/-- Concrete instantiation of the C10 theorem at the five-field expression
"0 9 * * *". -/
theorem C10_parse_cron_schedule_total_witness :
    (∃ t, parseCronSchedule "0 9 * * *" = "Runs " ++ t) ∨
      parseCronSchedule "0 9 * * *" = "Complex expression: " ++ "0 9 * * *" :=
  (C10_parse_cron_schedule_total "0 9 * * *").2.2 (by decide) (by decide)

/-! ## Tool-instance singleton (C9) -/

/-- C9: after the first call to `_get_tools`, every subsequent call returns
the identical dictionary of the same five tool instances regardless of the
`project_root` argument passed; more generally any call on a non-empty
instance dict returns it unchanged. -/
theorem C9_getTools_singleton (pr₁ pr₂ : Option String) :
    getTools (getTools [] pr₁) pr₂ = getTools [] pr₁ ∧
    (getTools (getTools [] pr₁) pr₂).map Prod.fst
      = ["data", "analytics", "search", "config", "system"] ∧
    (∀ st : List (String × ToolInstance), st ≠ [] → getTools st pr₂ = st) := by
  refine ⟨rfl, rfl, fun st h => ?_⟩
  unfold getTools
  rw [if_neg]
  simpa [List.isEmpty_iff] using h

/-- Concrete instantiation of the C9 theorem: a second call with a different
`project_root` leaves the instances created by the first call untouched. -/
theorem C9_getTools_singleton_witness :
    getTools (mkToolInstances none) (some "/other") = mkToolInstances none :=
  (C9_getTools_singleton none (some "/other")).2.2 (mkToolInstances none) (by decide)


/-! ## Word-group matching (C4) -/

/-- C4: a news item matches a WordGroup iff (required ⊆ item-terms, or
required is empty) and (optional ∩ item-terms ≠ ∅, or optional is empty) and
(excluded ∩ item-terms = ∅) — except that a group whose required and optional
sets are both empty matches no item at all (it is not a wildcard). -/
theorem C4_wordgroup_match (g : WordGroup) (terms : List String) :
    matchesGroup g terms = true ↔
      ((∀ w ∈ g.required, w ∈ terms) ∧
       (g.optional = [] ∨ ∃ w ∈ g.optional, w ∈ terms) ∧
       (∀ w ∈ g.excluded, w ∉ terms) ∧
       ¬(g.required = [] ∧ g.optional = [])) := by
  unfold matchesGroup
  split
  case isTrue h =>
    simp only [Bool.and_eq_true, List.isEmpty_iff] at h
    simp [h.1, h.2]
  case isFalse h =>
    have hne : ¬(g.required = [] ∧ g.optional = []) := by
      simpa [List.isEmpty_iff] using h
    simp only [Bool.and_eq_true, Bool.or_eq_true, List.all_eq_true,
      List.any_eq_true, List.isEmpty_iff, List.elem_eq_mem, decide_eq_true_eq,
      Bool.not_eq_true', decide_eq_false_iff_not]
    tauto

/-- Concrete instantiation of the C4 theorem: the group requiring "ai" and
excluding "crypto" matches the token list ["ai", "news"]. -/
theorem C4_wordgroup_match_witness :
    (∀ w ∈ (WordGroup.mk "ai" ["ai"] [] ["crypto"]).required, w ∈ ["ai", "news"]) ∧
    ((WordGroup.mk "ai" ["ai"] [] ["crypto"]).optional = [] ∨
      ∃ w ∈ (WordGroup.mk "ai" ["ai"] [] ["crypto"]).optional, w ∈ ["ai", "news"]) ∧
    (∀ w ∈ (WordGroup.mk "ai" ["ai"] [] ["crypto"]).excluded, w ∉ ["ai", "news"]) ∧
    ¬((WordGroup.mk "ai" ["ai"] [] ["crypto"]).required = [] ∧
      (WordGroup.mk "ai" ["ai"] [] ["crypto"]).optional = []) :=
  (C4_wordgroup_match (WordGroup.mk "ai" ["ai"] [] ["crypto"]) ["ai", "news"]).mp
    (by decide)

/-! ## News-by-date range monotonicity (C8) -/

/-- C8: for every valid date d and every range [s, e] containing d, the items
returned by news-by-date for the single-day range [d, d] are a subset of the
items returned for [s, e]. -/
theorem C8_news_by_date_subset (corpus : List Batch)
    (platforms : Option (List String)) (s d e : ℕ) (hsd : s ≤ d) (hde : d ≤ e) :
    ∀ it ∈ newsInDateRange corpus d d platforms,
      it ∈ newsInDateRange corpus s e platforms := by
  intro it hit
  unfold newsInDateRange at hit ⊢
  rw [List.mem_filter] at hit ⊢
  refine ⟨?_, hit.2⟩
  rcases List.mem_flatMap.mp hit.1 with ⟨b, hb, hitb⟩
  rw [List.mem_filter] at hb
  have hd := of_decide_eq_true hb.2
  exact List.mem_flatMap.mpr
    ⟨b, List.mem_filter.mpr ⟨hb.1, decide_eq_true (by omega)⟩, hitb⟩

/-- Concrete instantiation of the C8 theorem: the item of a batch dated day 5
returned for [5, 5] is also returned for the containing range [4, 6]. -/
theorem C8_news_by_date_subset_witness :
    (NewsItem.mk "hello" "zhihu" 1 100 none) ∈
      newsInDateRange [Batch.mk 5 100 [NewsItem.mk "hello" "zhihu" 1 100 none]] 4 6 none :=
  C8_news_by_date_subset [Batch.mk 5 100 [NewsItem.mk "hello" "zhihu" 1 100 none]]
    none 4 5 6 (by decide) (by decide) (NewsItem.mk "hello" "zhihu" 1 100 none)
    (by decide)

/-! ## Unified search thresholds (C2) -/

lemma mem_sortResults {sb : SortBy} {rs : List (NewsItem × ℚ)} {r : NewsItem × ℚ} :
    r ∈ sortResults sb rs ↔ r ∈ rs := by
  cases sb <;> simp [sortResults, List.mem_insertionSort]

/-- C2: in fuzzy mode, unified search returns no item whose token-set
similarity score is below the caller's threshold — every returned result is
scored by `textSimilarity` and meets the threshold — while keyword-mode
results are identical for every threshold value. -/
theorem C2_search_threshold (groups : List WordGroup) (corpus : List Batch)
    (query : String) (startD endD : ℕ) (platforms : Option (List String))
    (sortBy : SortBy) :
    (∀ t : ℚ, ∀ r ∈ searchNewsUnified groups corpus query SearchMode.fuzzy
        startD endD platforms sortBy t,
      t ≤ r.2 ∧ r.2 = textSimilarity query r.1.title) ∧
    (∀ t₁ t₂ : ℚ,
      searchNewsUnified groups corpus query SearchMode.keyword startD endD
          platforms sortBy t₁ =
        searchNewsUnified groups corpus query SearchMode.keyword startD endD
          platforms sortBy t₂) := by
  constructor
  · intro t r hr
    unfold searchNewsUnified at hr
    rw [mem_sortResults] at hr
    dsimp only at hr
    rw [List.mem_filter] at hr
    rcases hr with ⟨hmem, hthr⟩
    rcases List.mem_map.mp hmem with ⟨it, _, rfl⟩
    exact ⟨of_decide_eq_true hthr, rfl⟩
  · intro t₁ t₂
    rfl

/-- Concrete instantiation of the C2 theorem: with threshold 0 the item
titled "alpha beta" is returned by a fuzzy search for "alpha beta" with a
score meeting the threshold. -/
theorem C2_search_threshold_witness :
    (0 : ℚ) ≤ (NewsItem.mk "alpha beta" "p" 1 0 none,
        textSimilarity "alpha beta" "alpha beta").2 ∧
      (NewsItem.mk "alpha beta" "p" 1 0 none,
        textSimilarity "alpha beta" "alpha beta").2 =
        textSimilarity "alpha beta"
          (NewsItem.mk "alpha beta" "p" 1 0 none).title := by
  refine (C2_search_threshold [] [Batch.mk 0 0 [NewsItem.mk "alpha beta" "p" 1 0 none]]
    "alpha beta" 0 0 none SortBy.date).1 0
    (NewsItem.mk "alpha beta" "p" 1 0 none,
      textSimilarity "alpha beta" "alpha beta") ?_
  have ht : tokenize "alpha beta" = ["alpha", "beta"] := by decide
  unfold searchNewsUnified
  rw [mem_sortResults]
  dsimp only
  rw [List.mem_filter]
  constructor
  · simp [newsInDateRange, platformAllowed]
  · simp only [textSimilarity, ht]
    norm_num

/-! ## Relatedness scoring pipeline (C1) -/

/-- C1: `find_similar_news` and `search_related_news_history` score every
candidate with final = 0.7 × keywordOverlap + 0.3 × textSimilarity; every
returned result meets the caller's threshold, and the returned lists are
sorted by final score descending with ties broken by recency descending. -/
theorem C1_related_scoring (ref : String) (cands : List NewsItem) (t : ℚ)
    (corpus : List Batch) (startD endD : ℕ) :
    (∀ r ∈ findSimilarNews ref cands t,
        r.2 = (7 / 10 : ℚ) * keywordOverlap ref r.1.title
            + (3 / 10 : ℚ) * textSimilarity ref r.1.title ∧ t ≤ r.2) ∧
    (findSimilarNews ref cands t).Pairwise RelatedOrder ∧
    (∀ r ∈ searchRelatedNewsHistory ref corpus startD endD t,
        r.2 = (7 / 10 : ℚ) * keywordOverlap ref r.1.title
            + (3 / 10 : ℚ) * textSimilarity ref r.1.title ∧ t ≤ r.2) ∧
    (searchRelatedNewsHistory ref corpus startD endD t).Pairwise RelatedOrder := by
  have key : ∀ cs : List NewsItem, ∀ r ∈ findSimilarNews ref cs t,
      r.2 = (7 / 10 : ℚ) * keywordOverlap ref r.1.title
          + (3 / 10 : ℚ) * textSimilarity ref r.1.title ∧ t ≤ r.2 := by
    intro cs r hr
    unfold findSimilarNews at hr
    rw [List.mem_insertionSort, List.mem_filter] at hr
    rcases hr with ⟨hmem, hthr⟩
    rcases List.mem_map.mp hmem with ⟨it, _, rfl⟩
    exact ⟨rfl, of_decide_eq_true hthr⟩
  have sorted : ∀ cs : List NewsItem,
      (findSimilarNews ref cs t).Pairwise RelatedOrder := fun cs =>
    List.sorted_insertionSort RelatedOrder _
  exact ⟨key cands, sorted cands,
    key (newsInDateRange corpus startD endD none),
    sorted (newsInDateRange corpus startD endD none)⟩

/-- Concrete instantiation of the C1 theorem at the spec's own scenario:
reference "Company X cuts prices on Model Y", candidate "Company X announces
price cut for Model Y", threshold 0.4 — the candidate is returned with a
final score that meets the threshold and equals the blended formula. -/
theorem C1_related_scoring_witness :
    (NewsItem.mk "Company X announces price cut for Model Y" "p" 1 10 none,
        relatedScore "Company X cuts prices on Model Y"
          "Company X announces price cut for Model Y").2
      = (7 / 10 : ℚ) * keywordOverlap "Company X cuts prices on Model Y"
            (NewsItem.mk "Company X announces price cut for Model Y" "p" 1 10 none).title
        + (3 / 10 : ℚ) * textSimilarity "Company X cuts prices on Model Y"
            (NewsItem.mk "Company X announces price cut for Model Y" "p" 1 10 none).title
      ∧ (2 / 5 : ℚ) ≤
        (NewsItem.mk "Company X announces price cut for Model Y" "p" 1 10 none,
          relatedScore "Company X cuts prices on Model Y"
            "Company X announces price cut for Model Y").2 := by
  refine (C1_related_scoring "Company X cuts prices on Model Y"
    [NewsItem.mk "Company X announces price cut for Model Y" "p" 1 10 none]
    (2 / 5) [] 0 0).1
    (NewsItem.mk "Company X announces price cut for Model Y" "p" 1 10 none,
      relatedScore "Company X cuts prices on Model Y"
        "Company X announces price cut for Model Y") ?_
  unfold findSimilarNews
  rw [List.mem_insertionSort, List.mem_filter]
  constructor
  · simp
  · have hnum : ((tokenize "Company X cuts prices on Model Y").filter
        (fun w => (tokenize "Company X announces price cut for Model Y").contains w)).length
          = 4 := by decide
    have hden1 : (tokenize "Company X cuts prices on Model Y").length = 6 := by decide
    have hden2 : (tokenize "Company X announces price cut for Model Y").length = 7 := by
      decide
    simp only [relatedScore, keywordOverlap, textSimilarity, hnum, hden1, hden2]
    norm_num

/-! ## Viral detection with insufficient data (C3) -/

/-- C3: whenever the rolling window preceding a point contains fewer than two
points, viral detection reports an insufficient-data result for that point —
it never flags such a point as anomalous (and, being a total function, it
never crashes). -/
theorem C3_viral_insufficient_data (series : List TrendPoint) (threshold : ℚ)
    (timeWindow : ℕ) (p : TrendPoint) (hp : p ∈ series)
    (h2 : (rollingWindow series timeWindow p).length < 2) :
    (p, ViralStatus.insufficientData) ∈ viralClassify series threshold timeWindow ∧
    ∀ st : ViralStatus,
      (p, st) ∈ viralClassify series threshold timeWindow →
      st = ViralStatus.insufficientData := by
  constructor
  · unfold viralClassify
    refine List.mem_map.mpr ⟨p, hp, ?_⟩
    dsimp only
    rw [if_pos h2]
  · intro st hst
    unfold viralClassify at hst
    rcases List.mem_map.mp hst with ⟨q, hq, heq⟩
    dsimp only at heq
    by_cases hw : (rollingWindow series timeWindow q).length < 2
    · rw [if_pos hw] at heq
      rw [Prod.mk.injEq] at heq
      exact heq.2.symm
    · rw [if_neg hw] at heq
      split at heq <;>
        · rw [Prod.mk.injEq] at heq
          rw [heq.1] at hw
          exact absurd h2 hw
  
/-- Concrete instantiation of the C3 theorem: in a two-point series whose
second point has an empty 24-hour preceding window, viral detection reports
insufficient data for that point. -/
theorem C3_viral_insufficient_data_witness :
    (TrendPoint.mk 30 10, ViralStatus.insufficientData) ∈
      viralClassify [TrendPoint.mk 0 5, TrendPoint.mk 30 10] 3 24 :=
  (C3_viral_insufficient_data [TrendPoint.mk 0 5, TrendPoint.mk 30 10] 3 24
    (TrendPoint.mk 30 10) (by decide) (by decide)).1

/-! ## Unified analysis routing (C7) -/

/-- C7: topic trend analysis fails with `UnsupportedAnalysisType` exactly when
the analysis type is outside {trend, lifecycle, viral, predict}; for every
supported analysis type, an empty mention series yields a well-formed
empty-series result, not an error. -/
theorem C7_analysis_routing (analysisType : String) (series : List TrendPoint)
    (threshold : ℚ) (timeWindow lookaheadHours : ℕ) (confidenceThreshold : ℚ)
    (window eps : ℕ) :
    (analyzeTopicTrendUnified analysisType series threshold timeWindow
        lookaheadHours confidenceThreshold window eps
      = Except.error AnalysisError.unsupportedAnalysisType
        ↔ analysisType ∉ supportedAnalysisTypes) ∧
    (analysisType ∈ supportedAnalysisTypes → series = [] →
      ∃ res, analyzeTopicTrendUnified analysisType series threshold timeWindow
          lookaheadHours confidenceThreshold window eps = Except.ok res ∧
        res.series = []) := by
  by_cases h1 : analysisType = "trend"
  · subst h1
    refine ⟨by simp [analyzeTopicTrendUnified, supportedAnalysisTypes], ?_⟩
    intro _ hs
    subst hs
    exact ⟨_, rfl, rfl⟩
  · by_cases h2 : analysisType = "lifecycle"
    · subst h2
      refine ⟨by simp [analyzeTopicTrendUnified, supportedAnalysisTypes], ?_⟩
      intro _ hs
      subst hs
      exact ⟨_, rfl, rfl⟩
    · by_cases h3 : analysisType = "viral"
      · subst h3
        refine ⟨by simp [analyzeTopicTrendUnified, supportedAnalysisTypes], ?_⟩
        intro _ hs
        subst hs
        exact ⟨_, rfl, rfl⟩
      · by_cases h4 : analysisType = "predict"
        · subst h4
          refine ⟨by simp [analyzeTopicTrendUnified, supportedAnalysisTypes], ?_⟩
          intro _ hs
          subst hs
          exact ⟨_, rfl, rfl⟩
        · constructor
          · simp [analyzeTopicTrendUnified, supportedAnalysisTypes, h1, h2, h3, h4]
          · intro hmem
            exact absurd hmem (by simp [supportedAnalysisTypes, h1, h2, h3, h4])

/-- Concrete instantiation of the C7 theorem: viral analysis of an empty
series returns a well-formed empty-series result. -/
theorem C7_analysis_routing_witness :
    ∃ res, analyzeTopicTrendUnified "viral" [] 3 24 6 (7 / 10) 1 0
        = Except.ok res ∧ res.series = [] :=
  (C7_analysis_routing "viral" [] 3 24 6 (7 / 10) 1 0).2 (by decide) rfl

/-! ## Lifecycle phase partition (C5) -/

lemma mem_phaseIndices {counts : List ℕ} {window eps : ℕ} {ph : LifecyclePhase}
    {i : ℕ} :
    i ∈ phaseIndices counts window eps ph ↔
      i < counts.length ∧ lifecyclePhaseOf counts window eps i = ph := by
  unfold phaseIndices lifecyclePhases
  simp only [List.mem_map, List.mem_filter, List.mem_range, decide_eq_true_eq]
  constructor
  · rintro ⟨r, ⟨⟨j, hj, rfl⟩, hph⟩, rfl⟩
    exact ⟨hj, hph⟩
  · rintro ⟨hi, hph⟩
    exact ⟨(i, lifecyclePhaseOf counts window eps i), ⟨⟨i, hi, rfl⟩, hph⟩, rfl⟩

/-- C5: for every non-empty mention series, the lifecycle analysis assigns
each point of the series exactly one of the phases
{emerging, peak, declining, dormant}: every series position carries some
phase (the union covers the full series), no position carries two distinct
phases (the phases are pairwise non-overlapping), and phase indices never
leave the series. -/
theorem C5_lifecycle_partition (counts : List ℕ) (window eps : ℕ)
    (_hne : counts ≠ []) :
    (∀ i, i < counts.length → ∃ ph, i ∈ phaseIndices counts window eps ph) ∧
    (∀ i ph₁ ph₂, i ∈ phaseIndices counts window eps ph₁ →
        i ∈ phaseIndices counts window eps ph₂ → ph₁ = ph₂) ∧
    (∀ ph, ∀ i ∈ phaseIndices counts window eps ph, i < counts.length) := by
  refine ⟨fun i hi => ⟨lifecyclePhaseOf counts window eps i,
      mem_phaseIndices.mpr ⟨hi, rfl⟩⟩,
    fun i ph₁ ph₂ h1 h2 => ?_,
    fun ph i hi => (mem_phaseIndices.mp hi).1⟩
  rw [← (mem_phaseIndices.mp h1).2, ← (mem_phaseIndices.mp h2).2]

/-- Concrete instantiation of the C5 theorem: in the series [1, 3, 2, 0] the
first point carries a phase. -/
theorem C5_lifecycle_partition_witness :
    ∃ ph, 0 ∈ phaseIndices [1, 3, 2, 0] 1 0 ph :=
  (C5_lifecycle_partition [1, 3, 2, 0] 1 0 (by decide)).1 0 (by decide)

/-! ## Keyword co-occurrence (C6) -/

/-- Counting over index positions agrees with counting over list elements. -/
lemma card_filter_range_getD {α : Type} (l : List α) (p : α → Bool) (d : α) :
    ((Finset.range l.length).filter (fun i => p (l.getD i d) = true)).card
      = l.countP p := by
  induction l using List.reverseRecOn with
  | nil => simp
  | append_singleton xs x ih =>
      rw [List.countP_append, List.length_append]
      have hcong : ∀ i ∈ Finset.range xs.length,
          (p ((xs ++ [x]).getD i d) = true) ↔ (p (xs.getD i d) = true) := by
        intro i hi
        rw [List.getD_append xs [x] d i (Finset.mem_range.mp hi)]
      have hx : (xs ++ [x]).getD xs.length d = x := by
        rw [List.getD_append_right xs [x] d xs.length le_rfl]
        simp
      simp only [List.length_singleton, Finset.range_succ, Finset.filter_insert, hx]
      by_cases hpx : p x = true
      · rw [if_pos hpx, Finset.card_insert_of_not_mem
          (fun hmem => by simpa using Finset.mem_of_mem_filter _ hmem),
          Finset.filter_congr hcong, ih]
        simp [List.countP_cons, hpx]
      · rw [if_neg hpx, Finset.filter_congr hcong, ih]
        simp [List.countP_cons, hpx]

/-- C6: keyword co-occurrence strength is symmetric — cooccur(A,B) equals
cooccur(B,A) — and equals the Jaccard measure intersection-count /
union-count of the two groups' matched item sets. -/
theorem C6_cooccurrence (a b : WordGroup) (items : List NewsItem) :
    cooccurStrength a b items = cooccurStrength b a items ∧
    cooccurStrength a b items =
      ((matchedSet a items ∩ matchedSet b items).card : ℚ) /
        ((matchedSet a items ∪ matchedSet b items).card : ℚ) := by
  have hinter : (matchedSet a items ∩ matchedSet b items).card
      = cooccurCount a b items := by
    unfold matchedSet cooccurCount
    rw [← card_filter_range_getD items
      (fun it => matchesGroup a (itemTerms it) && matchesGroup b (itemTerms it))
      default]
    congr 1
    ext i
    simp only [Finset.mem_inter, Finset.mem_filter, Finset.mem_range,
      Bool.and_eq_true]
    tauto
  have hunion : (matchedSet a items ∪ matchedSet b items).card
      = eitherCount a b items := by
    unfold matchedSet eitherCount
    rw [← card_filter_range_getD items
      (fun it => matchesGroup a (itemTerms it) || matchesGroup b (itemTerms it))
      default]
    congr 1
    ext i
    simp only [Finset.mem_union, Finset.mem_filter, Finset.mem_range,
      Bool.or_eq_true]
    tauto
  have hci : cooccurCount a b items = cooccurCount b a items := by
    unfold cooccurCount
    exact List.countP_congr (fun it _ => by rw [Bool.and_comm])
  have hei : eitherCount a b items = eitherCount b a items := by
    unfold eitherCount
    exact List.countP_congr (fun it _ => by rw [Bool.or_comm])
  constructor
  · unfold cooccurStrength
    rw [hci, hei]
  · unfold cooccurStrength
    rw [hinter, hunion]
